import Mathlib

/-!
Verification of the employee-directory cross-store consistency layer.

The development shallowly embeds the Python sources:
* `src/app/models/employee.py`  — the record model and its validator,
* `src/app/database.py`         — the record-store (DynamoDB) adapter,
* `src/app/storage.py`          — the blob-store (S3) adapter,
* `src/app/employee_service.py` — the consistency coordinator,
* `src/app.py`                  — the add-employee flow that combines upload and create.

Modelling conventions:
* Timestamps are naturals (`datetime.utcnow().isoformat()` produces sortable
  strings; we keep only the order structure).
* The record store is a list of items in scan order together with a page size;
  a scan page is a chunk of `pageSize` items, mirroring DynamoDB pagination
  (`LastEvaluatedKey`).  `scan` with a filter applies the filter to the items
  of one page, exactly as DynamoDB applies `FilterExpression` per page.
* The blob store is a list of objects in listing (key) order;
  `list_objects_v2` with a prefix returns the matching objects in that order.
* Store failures (ClientError) are injected through explicit boolean or
  `Except` parameters where a claim is about failure behaviour.
-/

/-- Python `str.strip()`: drop whitespace from both ends.  Implemented on
the character list so that it reduces inside the kernel. -/
def pyStrip (s : String) : String :=
  ⟨((s.data.dropWhile Char.isWhitespace).reverse.dropWhile Char.isWhitespace).reverse⟩

/-- Python `c in s` for a single character. -/
def pyContains (s : String) (c : Char) : Bool :=
  s.data.contains c

/-- Python `s.startswith(p)` / an S3 key-prefix test. -/
def pyStartsWith (s p : String) : Bool :=
  p.data.isPrefixOf s.data

/-- Employee record, mirroring `Employee.__init__` / `to_dict` in
`src/app/models/employee.py`.  All optional fields already normalised to `""`
as the constructor does (`phone or ""` etc.); timestamps abstracted to `Nat`. -/
structure Employee where
  employee_id : String
  first_name : String
  last_name : String
  email : String
  position : String
  department : String
  phone : String
  hire_date : String
  profile_picture_url : String
  created_at : Nat
  updated_at : Nat
deriving DecidableEq, Repr

/-- `Employee.validate` from `src/app/models/employee.py` lines 88-135:
the error list is built by the same sequence of independent checks, in the
same order, with the email format check guarded by an `elif` on the email
required check.  Returns `(len(errors) == 0, errors)`. -/
def Employee.validate (e : Employee) : Bool × List String :=
  let errors : List String :=
    (if e.employee_id == "" then ["Employee ID is required"] else [])
    ++ ((if e.first_name == "" || pyStrip e.first_name == "" then ["First name is required"] else [])
    ++ ((if e.last_name == "" || pyStrip e.last_name == "" then ["Last name is required"] else [])
    ++ ((if e.email == "" || pyStrip e.email == "" then ["Email is required"]
         else if !(pyContains e.email '@') || !(pyContains e.email '.') then ["Invalid email format"]
         else [])
    ++ ((if e.position == "" || pyStrip e.position == "" then ["Position is required"] else [])
    ++ ((if e.department == "" || pyStrip e.department == "" then ["Department is required"] else [])
    ++ ((if decide (e.first_name.length > 50) then ["First name must be 50 characters or less"] else [])
    ++ ((if decide (e.last_name.length > 50) then ["Last name must be 50 characters or less"] else [])
    ++ ((if decide (e.email.length > 100) then ["Email must be 100 characters or less"] else [])
    ++ ((if decide (e.position.length > 100) then ["Position must be 100 characters or less"] else [])
    ++ ((if decide (e.department.length > 50) then ["Department must be 50 characters or less"] else [])
    ++ (if e.phone != "" && decide (e.phone.length > 20) then ["Phone number must be 20 characters or less"] else [])))))))))))
  (errors.length == 0, errors)

/-- One validation rule: a violation predicate and the message it reports. -/
structure VRule where
  bad : Employee → Bool
  msg : String

/-- The thirteen validation rules of `Employee.validate`, in report order.
The email-format rule is only applicable to a non-empty email (the source
uses `elif`), so its violation predicate carries that guard. -/
def vRules : List VRule :=
  [ ⟨fun e => e.employee_id == "", "Employee ID is required"⟩
  , ⟨fun e => e.first_name == "" || pyStrip e.first_name == "", "First name is required"⟩
  , ⟨fun e => e.last_name == "" || pyStrip e.last_name == "", "Last name is required"⟩
  , ⟨fun e => e.email == "" || pyStrip e.email == "", "Email is required"⟩
  , ⟨fun e => !(e.email == "" || pyStrip e.email == "") && (!(pyContains e.email '@') || !(pyContains e.email '.')), "Invalid email format"⟩
  , ⟨fun e => e.position == "" || pyStrip e.position == "", "Position is required"⟩
  , ⟨fun e => e.department == "" || pyStrip e.department == "", "Department is required"⟩
  , ⟨fun e => decide (e.first_name.length > 50), "First name must be 50 characters or less"⟩
  , ⟨fun e => decide (e.last_name.length > 50), "Last name must be 50 characters or less"⟩
  , ⟨fun e => decide (e.email.length > 100), "Email must be 100 characters or less"⟩
  , ⟨fun e => decide (e.position.length > 100), "Position must be 100 characters or less"⟩
  , ⟨fun e => decide (e.department.length > 50), "Department must be 50 characters or less"⟩
  , ⟨fun e => e.phone != "" && decide (e.phone.length > 20), "Phone number must be 20 characters or less"⟩ ]

/-- The record store: items in scan order plus the store-side page size.
A scan page is a chunk of `pageSize` items; `get_all_employees` follows
`LastEvaluatedKey` through every page, so a full scan yields `items`. -/
structure Table where
  items : List Employee
  pageSize : Nat
deriving DecidableEq, Repr

/-- `table.get_item(Key=...)`: key lookup, independent of pagination. -/
def Table.getItem (t : Table) (id : String) : Option Employee :=
  t.items.find? (fun e => e.employee_id == id)

/-- `table.put_item(Item=...)`: overwrite the item with the same key, or
insert a new item. -/
def Table.putItem (t : Table) (e : Employee) : Table :=
  if t.items.any (fun x => x.employee_id == e.employee_id) then
    { t with items := t.items.map (fun x => if x.employee_id == e.employee_id then e else x) }
  else
    { t with items := t.items ++ [e] }

/-- `table.delete_item(Key=...)`. -/
def Table.deleteItem (t : Table) (id : String) : Table :=
  { t with items := t.items.filter (fun e => e.employee_id != id) }

/-- The first page the store returns for a scan. -/
def Table.firstPage (t : Table) : List Employee :=
  t.items.take t.pageSize

/-- `EmployeeDatabase.create_employee` (`src/app/database.py` 29-61):
validate, reject an existing primary key, then `put_item`. -/
def dbCreateEmployee (t : Table) (e : Employee) : Bool × Table :=
  if !(Employee.validate e).1 then (false, t)
  else if (t.getItem e.employee_id).isSome then (false, t)
  else (true, t.putItem e)

/-- `EmployeeDatabase.get_employee` (`src/app/database.py` 63-87). -/
def dbGetEmployee (t : Table) (id : String) : Option Employee :=
  t.getItem id

/-- `EmployeeDatabase.update_employee` (`src/app/database.py` 89-124):
validate, require the key to exist, bump `updated_at` to the current time
(`update_timestamp`, `src/app/models/employee.py` 84-86), then `put_item`. -/
def dbUpdateEmployee (t : Table) (now : Nat) (e : Employee) : Bool × Table :=
  if !(Employee.validate e).1 then (false, t)
  else if (t.getItem e.employee_id).isNone then (false, t)
  else (true, t.putItem { e with updated_at := now })

/-- `EmployeeDatabase.delete_employee` (`src/app/database.py` 126-152), with
an injected outcome for the `delete_item` store call (`ok = false` models a
ClientError: the function returns `False` and the store is unchanged). -/
def dbDeleteEmployee (t : Table) (id : String) (ok : Bool) : Bool × Table :=
  if (t.getItem id).isNone then (false, t)
  else if ok then (true, t.deleteItem id)
  else (false, t)

/-- `EmployeeDatabase.get_all_employees` (`src/app/database.py` 154-187):
scans and then follows `LastEvaluatedKey` until exhausted, so it returns the
concatenation of every page, i.e. all items. -/
def dbGetAllEmployees (t : Table) : List Employee :=
  t.items

/-- `EmployeeDatabase.get_employee_by_email` (`src/app/database.py` 275-304):
one `scan` call with an email filter and NO `LastEvaluatedKey` loop (unlike
every other scan in the file), then `Items[0]` if the page produced matches.
Hence only the first page is consulted. -/
def dbGetEmployeeByEmail (t : Table) (email : String) : Option Employee :=
  (t.firstPage.filter (fun e => e.email == email)).head?

/-- A stored blob object; `uploadedAt` is the upload timestamp. -/
structure Blob where
  key : String
  uploadedAt : Nat
deriving DecidableEq, Repr

/-- The blob store: objects in listing (ascending key) order, the order in
which `list_objects_v2` returns them. -/
structure Bucket where
  objects : List Blob
deriving DecidableEq, Repr

/-- `list_objects_v2(Prefix=p)`: the objects whose key starts with `p`, in
listing order. -/
def Bucket.listUnder (b : Bucket) (p : String) : List Blob :=
  b.objects.filter (fun o => pyStartsWith o.key p)

/-- Batch `delete_objects` of every object whose key starts with `p`. -/
def Bucket.deleteUnder (b : Bucket) (p : String) : Bucket :=
  ⟨b.objects.filter (fun o => !(pyStartsWith o.key p))⟩

/-- Insert an object keeping ascending key order (S3 keeps its index sorted;
the uploaded key lands at its key-order position). -/
def insertByKey (o : Blob) : List Blob → List Blob
  | [] => [o]
  | x :: xs => if o.key < x.key then o :: x :: xs else x :: insertByKey o xs

/-- The profile-picture key space of one employee:
`f"profile-pictures/{employee_id}_"`. -/
def picKeyPfx (id : String) : String :=
  "profile-pictures/" ++ id ++ "_"

/-- The document key space of one employee: `f"documents/{employee_id}_"`. -/
def docKeyPfx (id : String) : String :=
  "documents/" ++ id ++ "_"

/-- `generate_presigned_url` for a key (fixed 1-hour expiry in the source);
only the key-dependence matters here. -/
def presignedUrl (key : String) : String :=
  "https://s3.presigned/" ++ key

/-- The plain object URL `upload_profile_picture` returns
(`https://bucket.s3.region.amazonaws.com/key`). -/
def objectUrl (key : String) : String :=
  "https://bucket.s3.amazonaws.com/" ++ key

/-- `EmployeeStorage.get_profile_picture_url` (`src/app/storage.py` 128-166):
list under the employee's picture prefix and presign `Contents[0]`, the first
object in listing order; `None` when the listing is empty. -/
def storageGetProfilePictureUrl (b : Bucket) (id : String) : Option String :=
  match (b.listUnder (picKeyPfx id)).head? with
  | none => none
  | some o => some (presignedUrl o.key)

/-- `EmployeeStorage.upload_profile_picture` (`src/app/storage.py` 32-85):
the key is the picture prefix plus a uniquifying suffix (uuid hex plus the
original extension), passed here as `sfx` since it is freshly random. -/
def storageUploadProfilePicture (b : Bucket) (id sfx : String) (now : Nat) : String × Bucket :=
  let key := picKeyPfx id ++ sfx
  (objectUrl key, ⟨insertByKey ⟨key, now⟩ b.objects⟩)

/-- `EmployeeStorage.delete_all_employee_files` (`src/app/storage.py`
304-353): list both employee prefixes, batch-delete the union, return `True`;
`ok = false` models a ClientError (nothing deleted, returns `False`). -/
def storageDeleteAllEmployeeFiles (b : Bucket) (id : String) (ok : Bool) : Bool × Bucket :=
  if ok then
    (true, ⟨b.objects.filter (fun o => !(pyStartsWith o.key (picKeyPfx id)) && !(pyStartsWith o.key (docKeyPfx id)))⟩)
  else (false, b)

/-- The two external stores the coordinator mediates between. -/
structure Sys where
  table : Table
  bucket : Bucket
deriving DecidableEq, Repr

/-- `EmployeeService.add_employee` (`src/app/employee_service.py` 28-62):
validate, duplicate-email check via `get_employee_by_email`, then
`create_employee`. -/
def serviceAddEmployee (s : Sys) (e : Employee) : Bool × Sys :=
  if !(Employee.validate e).1 then (false, s)
  else if (dbGetEmployeeByEmail s.table e.email).isSome then (false, s)
  else
    let r := dbCreateEmployee s.table e
    (r.1, { s with table := r.2 })

/-- `EmployeeService.get_employee` (`src/app/employee_service.py` 64-86):
fetch the record; if present and a profile-picture URL is obtained from the
blob store, overwrite `profile_picture_url` with it, otherwise return the
record as stored. -/
def serviceGetEmployee (s : Sys) (id : String) : Option Employee :=
  match dbGetEmployee s.table id with
  | none => none
  | some e =>
    match storageGetProfilePictureUrl s.bucket id with
    | none => some e
    | some url => some { e with profile_picture_url := url }

/-- `EmployeeService.update_employee` (`src/app/employee_service.py` 88-129):
validate, require existence, and when the email changed run the duplicate
check against the new email excluding the employee's own id; then update. -/
def serviceUpdateEmployee (s : Sys) (now : Nat) (e : Employee) : Bool × Sys :=
  if !(Employee.validate e).1 then (false, s)
  else
    match dbGetEmployee s.table e.employee_id with
    | none => (false, s)
    | some existing =>
      let dup : Bool :=
        if existing.email != e.email then
          match dbGetEmployeeByEmail s.table e.email with
          | some other => other.employee_id != e.employee_id
          | none => false
        else false
      if dup then (false, s)
      else
        let r := dbUpdateEmployee s.table now e
        (r.1, { s with table := r.2 })

/-- `EmployeeService.delete_employee` (`src/app/employee_service.py`
131-165): require existence, best-effort blob cleanup (a failure is only
logged), then delete the record and return the record-delete outcome. -/
def serviceDeleteEmployee (s : Sys) (id : String) (blobOk dbOk : Bool) : Bool × Sys :=
  match dbGetEmployee s.table id with
  | none => (false, s)
  | some _ =>
    let sb := storageDeleteAllEmployeeFiles s.bucket id blobOk
    let db := dbDeleteEmployee s.table id dbOk
    (db.1, { table := db.2, bucket := sb.2 })

/-- `EmployeeService.upload_profile_picture` (`src/app/employee_service.py`
239-274): require the employee record to exist (otherwise return `None`
without touching the blob store), delete the existing picture, upload the
new one, and persist the new URL on the record. -/
def serviceUploadProfilePicture (s : Sys) (id sfx : String) (now : Nat) : Option String × Sys :=
  match dbGetEmployee s.table id with
  | none => (none, s)
  | some emp =>
    let b1 := Bucket.deleteUnder s.bucket (picKeyPfx id)
    let up := storageUploadProfilePicture b1 id sfx now
    let emp2 := { emp with profile_picture_url := up.1 }
    let r := dbUpdateEmployee s.table now emp2
    (some up.1, { table := r.2, bucket := up.2 })

/-- The add-employee form data of the `/add` route (`src/app.py` 41-83):
the text fields, whether an allowed picture file was attached, and the
uniquifying suffix the storage layer would use for it. -/
structure AddForm where
  first_name : String
  last_name : String
  email : String
  position : String
  department : String
  phone : String
  hire_date : String
  hasPicture : Bool
  pictureSfx : String

/-- The `/add` POST flow (`src/app.py` 44-79): generate a fresh id, attempt
the profile-picture upload first, build the record with the returned URL
(empty when the upload returned `None`), then `add_employee`. -/
def appAddEmployee (s : Sys) (freshId : String) (f : AddForm) (now : Nat) : Bool × Sys :=
  let up := if f.hasPicture then serviceUploadProfilePicture s freshId f.pictureSfx now
            else (none, s)
  let e : Employee :=
    { employee_id := freshId
    , first_name := f.first_name
    , last_name := f.last_name
    , email := f.email
    , position := f.position
    , department := f.department
    , phone := f.phone
    , hire_date := f.hire_date
    , profile_picture_url := up.1.getD ""
    , created_at := now
    , updated_at := now }
  serviceAddEmployee up.2 e

/-- The health report `EmployeeService.health_check` builds
(`src/app/employee_service.py` 456-480). -/
structure HealthReport where
  database : Bool
  storage : Bool
  overall : Bool
  error : Option String
deriving DecidableEq, Repr

/-- `EmployeeService.health_check`: the two adapter checks are modelled as
`Except` outcomes (an `error` is a raised exception); the try/except catches
any raise and returns the all-false degraded report with the message. -/
def serviceHealthCheck (dbRes stRes : Except String Bool) : HealthReport :=
  match dbRes with
  | .error m => ⟨false, false, false, some m⟩
  | .ok dbH =>
    match stRes with
    | .error m => ⟨false, false, false, some m⟩
    | .ok stH => ⟨dbH, stH, dbH && stH, none⟩

/-- The numeric part of the statistics dictionary `get_statistics` builds
(`src/app/employee_service.py` 416-454). -/
structure Stats where
  total_employees : Nat
  total_departments : Nat
  total_positions : Nat
  employees_with_pictures : Nat
deriving DecidableEq, Repr

/-- The statistics computed from a scan result: total count, distinct
non-empty departments and positions, and the count of records with a
non-empty picture reference. -/
def computeStats (employees : List Employee) : Stats :=
  { total_employees := employees.length
  , total_departments := ((employees.filter (fun e => e.department != "")).map (fun e => e.department)).dedup.length
  , total_positions := ((employees.filter (fun e => e.position != "")).map (fun e => e.position)).dedup.length
  , employees_with_pictures := (employees.filter (fun e => e.profile_picture_url != "")).length }

/-- Refresh one record's picture URL from the blob store, as the coordinator
read paths do. -/
def refreshUrl (b : Bucket) (e : Employee) : Employee :=
  match storageGetProfilePictureUrl b e.employee_id with
  | none => e
  | some url => { e with profile_picture_url := url }

/-- Interface behaviour of `add_employee` with the two adapter calls exposed
as `Except` outcomes (`error` models a raised exception reaching the `try`
of `src/app/employee_service.py` 38-62, which returns `False`). -/
def serviceAddEmployeeE (e : Employee) (emailRes : Except String (Option Employee))
    (createRes : Except String Bool) : Bool :=
  if !(Employee.validate e).1 then false
  else
    match emailRes with
    | .error _ => false
    | .ok (some _) => false
    | .ok none =>
      match createRes with
      | .error _ => false
      | .ok b => b

/-- Interface behaviour of `get_employee`: a raised exception or an absent
record both surface as `None` (`src/app/employee_service.py` 74-86). -/
def serviceGetEmployeeE (getRes : Except String (Option Employee)) (b : Bucket) : Option Employee :=
  match getRes with
  | .error _ => none
  | .ok none => none
  | .ok (some e) => some (refreshUrl b e)

/-- Interface behaviour of `get_all_employees`: a raised exception surfaces
as the empty list (`src/app/employee_service.py` 167-187). -/
def serviceGetAllEmployeesE (scanRes : Except String (List Employee)) (b : Bucket) : List Employee :=
  match scanRes with
  | .error _ => []
  | .ok l => l.map (refreshUrl b)

/-- Interface behaviour of `get_statistics`: a raised exception anywhere in
the body surfaces as the empty dictionary, modelled as `none`
(`src/app/employee_service.py` 416-454). -/
def serviceGetStatisticsE (scanRes : Except String (List Employee))
    (infoRes : Except String Unit) : Option Stats :=
  match scanRes with
  | .error _ => none
  | .ok employees =>
    match infoRes with
    | .error _ => none
    | .ok _ => some (computeStats employees)

/-- Modelled from the spec: the "most-recently-uploaded" blob of a listing
(spec section 4.4, GetEmployee: "taking the most-recently-uploaded one").
Used only to compare the spec's selection rule with the code's. -/
def specMostRecent (l : List Blob) : Option Blob :=
  l.foldl (fun acc o =>
    match acc with
    | none => some o
    | some m => if m.uploadedAt < o.uploadedAt then some o else some m) none

/-- Number of records in the store carrying a given email. -/
def emailCount (t : Table) (em : String) : Nat :=
  (t.items.filter (fun e => e.email == em)).length

/-- Concrete data: a first-page record with a distinct email. -/
def c1Emp1 : Employee := ⟨"f1", "Ann", "Ao", "ann@x.com", "Dev", "Eng", "", "", "", 0, 0⟩

/-- Concrete data: the unique record with email `dup@x.com`, on page two. -/
def c1Emp2 : Employee := ⟨"e1", "Bob", "Bo", "dup@x.com", "Dev", "Eng", "", "", "", 0, 0⟩

/-- Concrete data: a two-page store (page size 1) holding exactly one record
with email `dup@x.com`, on the second page. -/
def c1Sys : Sys := ⟨⟨[c1Emp1, c1Emp2], 1⟩, ⟨[]⟩⟩

/-- Concrete data: a fresh valid record reusing the email `dup@x.com`. -/
def c1New : Employee := ⟨"g1", "Cid", "Co", "dup@x.com", "Dev", "Eng", "", "", "", 1, 1⟩

/-- Concrete data: an employee record and blobs for exercising deletion. -/
def c2Emp : Employee := ⟨"e1", "Ann", "Ao", "ann@x.com", "Dev", "Eng", "", "", "", 0, 0⟩

/-- Concrete data: a store with one record and three blobs of that employee
(one picture, two documents). -/
def c2Sys : Sys :=
  ⟨⟨[c2Emp], 10⟩,
   ⟨[⟨"documents/e1_contract_a.pdf", 1⟩, ⟨"documents/e1_general_b.pdf", 2⟩,
     ⟨"profile-pictures/e1_c.png", 3⟩]⟩⟩

/-- Concrete data: an empty system for the add-with-picture flow. -/
def c3Sys : Sys := ⟨⟨[], 10⟩, ⟨[]⟩⟩

/-- Concrete data: a complete add form with an attached picture file. -/
def c3Form : AddForm := ⟨"Ann", "Ao", "ann@x.com", "Dev", "Eng", "", "", true, "deadbeef.png"⟩

/-- Concrete data: employee `e1` owning `a@b.com`. -/
def c4E1 : Employee := ⟨"e1", "Ann", "Ao", "a@b.com", "Dev", "Eng", "", "", "", 0, 0⟩

/-- Concrete data: employee `e2`, on the second page, owning `c@d.com`. -/
def c4E2 : Employee := ⟨"e2", "Bob", "Bo", "c@d.com", "Dev", "Eng", "", "", "", 0, 0⟩

/-- Concrete data: a two-page store (page size 1) with `e1` on page one and
`e2` on page two. -/
def c4Sys : Sys := ⟨⟨[c4E1, c4E2], 1⟩, ⟨[]⟩⟩

/-- Concrete data: `e1` updated to the email `e2` already owns. -/
def c4Update : Employee := { c4E1 with email := "c@d.com" }

/-- Concrete data: a record whose stored picture reference is a stale
non-empty string while the blob store is empty. -/
def c5Stale : Employee := ⟨"e1", "Ann", "Ao", "ann@x.com", "Dev", "Eng", "", "", "stale", 0, 0⟩

/-- Concrete data: system for the stale-reference scenario. -/
def c5Sys1 : Sys := ⟨⟨[c5Stale], 10⟩, ⟨[]⟩⟩

/-- Concrete data: a record with two profile-picture blobs where the
most-recently-uploaded one has the lexicographically larger key. -/
def c5Emp2 : Employee := ⟨"e2", "Bob", "Bo", "bob@x.com", "Dev", "Eng", "", "", "", 0, 0⟩

/-- Concrete data: two pictures of `e2`; the newer upload (time 9) sorts
after the older one (time 5) in listing order. -/
def c5Sys2 : Sys :=
  ⟨⟨[c5Emp2], 10⟩,
   ⟨[⟨"profile-pictures/e2_a.png", 5⟩, ⟨"profile-pictures/e2_z.png", 9⟩]⟩⟩

/-- Concrete data: a two-page store for the email-lookup pagination bug. -/
def c8Table : Table := ⟨[c1Emp1, c1Emp2], 1⟩

/-- Concrete data: stored record used by the frame-property witness. -/
def w6Emp : Employee := ⟨"e1", "Ann", "Ao", "ann@x.com", "Dev", "Eng", "111", "2020-01-01", "pic", 3, 3⟩

/-- Concrete data: one-record table for the frame-property witness. -/
def w6Table : Table := ⟨[w6Emp], 10⟩

/-- Concrete data: the same record with only the phone changed. -/
def w6New : Employee := { w6Emp with phone := "222" }

/-- Concrete data: an employee violating the first-name rule, used to
witness the validator characterisation. -/
def w7Emp : Employee := ⟨"e1", "", "Ao", "ann@x.com", "Dev", "Eng", "", "", "", 0, 0⟩

/-- Concrete data: an employee violating every required-field rule. -/
def w10Emp : Employee := ⟨"", "", "", "", "", "", "", "", "", 0, 0⟩

/-- Interface behaviour of `update_employee` (`src/app/employee_service.py`
88-129) with each adapter call exposed as an `Except` outcome (`error`
models a raised exception); a raise anywhere in the body is caught by the
surrounding try/except and surfaces as `False`. -/
def serviceUpdateEmployeeE (e : Employee) (getRes emailRes : Except String (Option Employee))
    (updRes : Except String Bool) : Bool :=
  if !(Employee.validate e).1 then false
  else
    match getRes with
    | .error _ => false
    | .ok none => false
    | .ok (some existing) =>
      let dup : Except String Bool :=
        if existing.email != e.email then
          match emailRes with
          | .error m => .error m
          | .ok (some other) => .ok (other.employee_id != e.employee_id)
          | .ok none => .ok false
        else .ok false
      match dup with
      | .error _ => false
      | .ok true => false
      | .ok false =>
        match updRes with
        | .error _ => false
        | .ok b => b

/-- Interface behaviour of `delete_employee` (`src/app/employee_service.py`
131-165): existence check, best-effort blob cleanup whose boolean outcome is
only logged, then the record delete; any raise surfaces as `False`. -/
def serviceDeleteEmployeeE (getRes : Except String (Option Employee))
    (blobRes delRes : Except String Bool) : Bool :=
  match getRes with
  | .error _ => false
  | .ok none => false
  | .ok (some _) =>
    match blobRes with
    | .error _ => false
    | .ok _ =>
      match delRes with
      | .error _ => false
      | .ok b => b

/-- Interface behaviour of `search_employees_by_department`
(`src/app/employee_service.py` 189-212): a raise surfaces as `[]`. -/
def serviceSearchByDepartmentE (scanRes : Except String (List Employee)) (b : Bucket) :
    List Employee :=
  match scanRes with
  | .error _ => []
  | .ok l => l.map (refreshUrl b)

/-- Interface behaviour of `search_employees_by_position`
(`src/app/employee_service.py` 214-237): a raise surfaces as `[]`. -/
def serviceSearchByPositionE (scanRes : Except String (List Employee)) (b : Bucket) :
    List Employee :=
  match scanRes with
  | .error _ => []
  | .ok l => l.map (refreshUrl b)

/-- Interface behaviour of `upload_profile_picture`
(`src/app/employee_service.py` 239-274): existence check, delete of the old
picture, the upload (itself returning an optional URL), and a record update
whose outcome does not change the returned URL; any raise surfaces as
`None`.  The degraded value of this mutating operation is `None`, not
`False`, because its interface returns an optional URL. -/
def serviceUploadProfilePictureE (getRes : Except String (Option Employee))
    (delRes : Except String Bool) (upRes : Except String (Option String))
    (updRes : Except String Bool) : Option String :=
  match getRes with
  | .error _ => none
  | .ok none => none
  | .ok (some _) =>
    match delRes with
    | .error _ => none
    | .ok _ =>
      match upRes with
      | .error _ => none
      | .ok none => none
      | .ok (some url) =>
        match updRes with
        | .error _ => none
        | .ok _ => some url

/-- Interface behaviour of `delete_profile_picture`
(`src/app/employee_service.py` 276-306): the storage outcome is returned;
when it is `True` the record is also updated, and a raise in that update
surfaces as `False`. -/
def serviceDeleteProfilePictureE (getRes : Except String (Option Employee))
    (delRes : Except String Bool) (updRes : Except String Bool) : Bool :=
  match getRes with
  | .error _ => false
  | .ok none => false
  | .ok (some _) =>
    match delRes with
    | .error _ => false
    | .ok success =>
      if success then
        match updRes with
        | .error _ => false
        | .ok _ => true
      else false

/-- Interface behaviour of `upload_document` (`src/app/employee_service.py`
308-338): existence check then the upload; any raise surfaces as `None`.
As with the picture upload, the degraded value of this mutating operation
is `None`. -/
def serviceUploadDocumentE (getRes : Except String (Option Employee))
    (upRes : Except String (Option String)) : Option String :=
  match getRes with
  | .error _ => none
  | .ok none => none
  | .ok (some _) =>
    match upRes with
    | .error _ => none
    | .ok url => url

/-- Interface behaviour of `get_employee_documents`
(`src/app/employee_service.py` 340-363), the document descriptions
abstracted to their store keys; a raise or an absent employee surfaces
as `[]`. -/
def serviceGetEmployeeDocumentsE (getRes : Except String (Option Employee))
    (listRes : Except String (List String)) : List String :=
  match getRes with
  | .error _ => []
  | .ok none => []
  | .ok (some _) =>
    match listRes with
    | .error _ => []
    | .ok l => l

/-- Interface behaviour of `delete_document` (`src/app/employee_service.py`
365-380): a raise surfaces as `False`. -/
def serviceDeleteDocumentE (delRes : Except String Bool) : Bool :=
  match delRes with
  | .error _ => false
  | .ok b => b

/-- Python `sorted` on strings (lexicographic ascending). -/
def pySorted (l : List String) : List String :=
  List.insertionSort (fun a b => a ≤ b) l

/-- Interface behaviour of `get_departments` (`src/app/employee_service.py`
382-397): the sorted distinct non-empty departments of a full scan; a raise
surfaces as `[]`. -/
def serviceGetDepartmentsE (scanRes : Except String (List Employee)) : List String :=
  match scanRes with
  | .error _ => []
  | .ok employees =>
    pySorted ((employees.filter (fun e => e.department != "")).map (fun e => e.department)).dedup

/-- Interface behaviour of `get_positions` (`src/app/employee_service.py`
399-414): the sorted distinct non-empty positions of a full scan; a raise
surfaces as `[]`. -/
def serviceGetPositionsE (scanRes : Except String (List Employee)) : List String :=
  match scanRes with
  | .error _ => []
  | .ok employees =>
    pySorted ((employees.filter (fun e => e.position != "")).map (fun e => e.position)).dedup

theorem email_split (c4 c5 : Bool) (m4 m5 : String) :
    (if c4 then [m4] else if c5 then [m5] else [])
    = (if c4 then [m4] else []) ++ (if !c4 && c5 then [m5] else []) := by
  cases c4 <;> cases c5 <;> simp

theorem seg_filter_map (r : VRule) (rs : List VRule) (e : Employee) :
    ((r :: rs).filter (fun x => x.bad e)).map (fun x => x.msg)
    = (if r.bad e then [r.msg] else []) ++ ((rs.filter (fun x => x.bad e)).map (fun x => x.msg)) := by
  cases h : r.bad e <;> simp [List.filter_cons, h]

theorem validate_errors_eq (e : Employee) :
    (Employee.validate e).2 = (vRules.filter (fun r => r.bad e)).map (fun r => r.msg) := by
  simp only [Employee.validate, vRules, seg_filter_map, List.filter_nil, List.map_nil,
    email_split, List.append_assoc, List.append_nil]

theorem find?_replace (x : Employee) (l : List Employee) :
    (l.map (fun y => if y.employee_id == x.employee_id then x else y)).find?
      (fun y => y.employee_id == x.employee_id)
    = if l.any (fun y => y.employee_id == x.employee_id) then some x else none := by
  induction l with
  | nil => rfl
  | cons a l ih =>
    by_cases h : a.employee_id = x.employee_id
    · have hb : (a.employee_id == x.employee_id) = true := by simp [h]
      rw [List.map_cons, List.find?_cons_of_pos _ (by simp [hb])]
      simp [hb]
    · have hb : (a.employee_id == x.employee_id) = false := by simp [h]
      rw [List.map_cons, List.find?_cons_of_neg _ (by simp [hb]), ih, List.any_cons, hb,
        Bool.false_or]

theorem getItem_putItem_self (t : Table) (x : Employee) :
    (t.putItem x).getItem x.employee_id = some x := by
  unfold Table.putItem Table.getItem
  split
  · exact (find?_replace x t.items).trans (if_pos (by assumption))
  · next hneg =>
    have hf : t.items.any (fun y => y.employee_id == x.employee_id) = false := by
      simpa using hneg
    have hnone : t.items.find? (fun y => y.employee_id == x.employee_id) = none := by
      rw [List.find?_eq_none]
      intro y hy hpy
      have hany : t.items.any (fun y => y.employee_id == x.employee_id) = true :=
        List.any_eq_true.2 ⟨y, hy, hpy⟩
      rw [hf] at hany
      exact Bool.false_ne_true hany
    rw [List.find?_append, hnone]
    simp [List.find?_cons]

theorem getItem_deleteItem_self (t : Table) (id : String) :
    (t.deleteItem id).getItem id = none := by
  unfold Table.deleteItem Table.getItem
  rw [List.find?_eq_none]
  intro x hx
  have h2 := (List.mem_filter.1 hx).2
  simp only [bne_iff_ne, ne_eq] at h2
  simp [h2]

theorem filter_not_and_fst (l : List Blob) (p q : Blob → Bool) :
    (l.filter (fun o => !(p o) && !(q o))).filter p = [] := by
  rw [List.filter_eq_nil_iff]
  intro a ha hp
  have h2 := (List.mem_filter.1 ha).2
  simp [hp] at h2

theorem filter_not_and_snd (l : List Blob) (p q : Blob → Bool) :
    (l.filter (fun o => !(p o) && !(q o))).filter q = [] := by
  rw [List.filter_eq_nil_iff]
  intro a ha hq
  have h2 := (List.mem_filter.1 ha).2
  simp [hq] at h2

/-- Claim C1 (code divergence witness): in a record store holding exactly one
record with email `dup@x.com` — on the second scan page — a second sequential
AddEmployee with a valid record reusing that email does NOT fail with
DuplicateEmail: the duplicate check consults only the first scan page, the
call returns success, and the store afterwards holds two records with that
email. -/
theorem addEmployee_secondPage_duplicate :
    emailCount c1Sys.table "dup@x.com" = 1
  ∧ (serviceAddEmployee c1Sys c1New).1 = true
  ∧ emailCount (serviceAddEmployee c1Sys c1New).2.table "dup@x.com" = 2 := by
  decide

/-- Claim C2: deleting an existing employee removes the record and every blob
under both of the employee's key prefixes, and the call returns exactly the
record-delete outcome regardless of the blob-cleanup outcome; afterwards the
record read returns nothing and both prefix listings are empty.  For an
absent id the call fails. -/
theorem deleteEmployee_spec (s : Sys) (id : String) (blobOk dbOk : Bool) :
    (dbGetEmployee s.table id = none → serviceDeleteEmployee s id blobOk dbOk = (false, s))
  ∧ (∀ e, dbGetEmployee s.table id = some e →
      ((serviceDeleteEmployee s id blobOk dbOk).1 = dbOk
       ∧ (dbOk = true → serviceGetEmployee (serviceDeleteEmployee s id blobOk dbOk).2 id = none)
       ∧ (blobOk = true →
           ((serviceDeleteEmployee s id blobOk dbOk).2.bucket.listUnder (picKeyPfx id) = []
            ∧ (serviceDeleteEmployee s id blobOk dbOk).2.bucket.listUnder (docKeyPfx id) = [])))) := by
  constructor
  · intro h
    simp [serviceDeleteEmployee, h]
  · intro e he
    have hdel : dbDeleteEmployee s.table id dbOk =
        (dbOk, if dbOk then s.table.deleteItem id else s.table) := by
      unfold dbDeleteEmployee
      rw [dbGetEmployee] at he
      rw [he]
      cases dbOk <;> simp
    refine ⟨?_, ?_, ?_⟩
    · simp [serviceDeleteEmployee, he, hdel]
    · intro hdb
      subst hdb
      have he2 : s.table.getItem id = some e := he
      have hdel2 : dbDeleteEmployee s.table id true = (true, s.table.deleteItem id) := by
        simp [dbDeleteEmployee, he2]
      simp [serviceDeleteEmployee, he, he2, hdel2, serviceGetEmployee, dbGetEmployee,
        getItem_deleteItem_self]
    · intro hb
      subst hb
      have hbucket : (serviceDeleteEmployee s id true dbOk).2.bucket
          = ⟨s.bucket.objects.filter
              (fun o => !(pyStartsWith o.key (picKeyPfx id)) && !(pyStartsWith o.key (docKeyPfx id)))⟩ := by
        simp [serviceDeleteEmployee, he, storageDeleteAllEmployeeFiles]
      rw [hbucket]
      exact ⟨filter_not_and_fst s.bucket.objects
               (fun o => pyStartsWith o.key (picKeyPfx id)) (fun o => pyStartsWith o.key (docKeyPfx id)),
             filter_not_and_snd s.bucket.objects
               (fun o => pyStartsWith o.key (picKeyPfx id)) (fun o => pyStartsWith o.key (docKeyPfx id))⟩

/-- Witness for claim C2 at a concrete store: one record, one picture blob
and two document blobs; after deletion the record is gone and both prefix
listings are empty. -/
theorem deleteEmployee_spec_witness :
    (serviceDeleteEmployee c2Sys "e1" true true).1 = true
  ∧ serviceGetEmployee (serviceDeleteEmployee c2Sys "e1" true true).2 "e1" = none
  ∧ (serviceDeleteEmployee c2Sys "e1" true true).2.bucket.listUnder (picKeyPfx "e1") = []
  ∧ (serviceDeleteEmployee c2Sys "e1" true true).2.bucket.listUnder (docKeyPfx "e1") = [] :=
  have H := (deleteEmployee_spec c2Sys "e1" true true).2 c2Emp rfl
  ⟨H.1, H.2.1 rfl, (H.2.2 rfl).1, (H.2.2 rfl).2⟩

/-- Claim C3 (code divergence witness): the add-with-picture flow never
uploads the blob, because the upload helper requires the record to exist and
the record is only created afterwards with a freshly generated id.  At a
concrete valid form with a picture attached, the flow succeeds, the blob
store is left empty and the subsequent read returns an empty picture
reference instead of a URL for an uploaded picture. -/
theorem addFlow_picture_never_uploaded :
    (appAddEmployee c3Sys "f1" c3Form 7).1 = true
  ∧ (appAddEmployee c3Sys "f1" c3Form 7).2.bucket = ⟨[]⟩
  ∧ (serviceGetEmployee (appAddEmployee c3Sys "f1" c3Form 7).2 "f1").map
      (fun e => e.profile_picture_url) = some "" := by
  decide

/-- Claim C4 (code divergence witness): updating employee `e1` to the email
`c@d.com` already owned by `e2` does NOT fail when `e2` sits on the second
scan page: the duplicate check consults only the first page, the update
succeeds, `e1`'s stored email becomes `c@d.com`, and two records then share
that email. -/
theorem updateEmployee_secondPage_duplicate :
    (serviceUpdateEmployee c4Sys 3 c4Update).1 = true
  ∧ ((serviceUpdateEmployee c4Sys 3 c4Update).2.table.getItem "e1").map (fun e => e.email)
      = some "c@d.com"
  ∧ emailCount (serviceUpdateEmployee c4Sys 3 c4Update).2.table "c@d.com" = 2 := by
  decide

/-- Counterexample to claim C5 as stated: (a) with a record whose stored
reference is the stale string `stale` and no blob present, GetEmployee
returns the reference unchanged, not empty; (b) with two pictures present,
GetEmployee presigns the first blob in listing order (`..._a.png`), while
the most-recently-uploaded one is `..._z.png`, and the two URLs differ. -/
theorem getEmployee_claim_counterexample :
    ((serviceGetEmployee c5Sys1 "e1").map (fun e => e.profile_picture_url) = some "stale")
  ∧ ((serviceGetEmployee c5Sys2 "e2").map (fun e => e.profile_picture_url)
       = some (presignedUrl "profile-pictures/e2_a.png"))
  ∧ (specMostRecent (c5Sys2.bucket.listUnder (picKeyPfx "e2"))
       = some ⟨"profile-pictures/e2_z.png", 9⟩)
  ∧ presignedUrl "profile-pictures/e2_a.png" ≠ presignedUrl "profile-pictures/e2_z.png" := by
  decide

/-- Claim C5 as amended: GetEmployee returns nothing when the record is
absent; when the record is present, the picture reference is replaced with a
presigned URL for the first blob in listing order under the employee's
picture prefix when one exists, and is left at its stored value when the
listing is empty (not an error). -/
theorem getEmployee_amended (s : Sys) (id : String) :
    (dbGetEmployee s.table id = none → serviceGetEmployee s id = none)
  ∧ (∀ e, dbGetEmployee s.table id = some e →
      ((s.bucket.listUnder (picKeyPfx id) = [] → serviceGetEmployee s id = some e)
       ∧ (∀ o rest, s.bucket.listUnder (picKeyPfx id) = o :: rest →
           serviceGetEmployee s id
             = some { e with profile_picture_url := presignedUrl o.key }))) := by
  constructor
  · intro h
    simp [serviceGetEmployee, h]
  · intro e he
    constructor
    · intro hl
      simp [serviceGetEmployee, he, storageGetProfilePictureUrl, hl]
    · intro o rest hl
      simp [serviceGetEmployee, he, storageGetProfilePictureUrl, hl]

/-- Witness for the amended claim C5: with two pictures listed, the read
returns the record carrying the presigned URL of the first listed blob. -/
theorem getEmployee_amended_witness :
    serviceGetEmployee c5Sys2 "e2"
      = some { c5Emp2 with profile_picture_url := presignedUrl "profile-pictures/e2_a.png" } :=
  ((getEmployee_amended c5Sys2 "e2").2 c5Emp2 rfl).2
    ⟨"profile-pictures/e2_a.png", 5⟩ [⟨"profile-pictures/e2_z.png", 9⟩] (by decide)

/-- Claim C6: an update that changes only the phone field of a stored record
succeeds, preserves every other field of the stored record (id, names,
email, position, department, hire date, picture reference, creation time)
and strictly advances the update timestamp. -/
theorem update_phone_only_frame (t : Table) (now : Nat) (e e2 : Employee)
    (hstored : t.getItem e2.employee_id = some e)
    (hvalid : (Employee.validate e2).1 = true)
    (hid : e2.employee_id = e.employee_id)
    (hfn : e2.first_name = e.first_name)
    (hln : e2.last_name = e.last_name)
    (hem : e2.email = e.email)
    (hpos : e2.position = e.position)
    (hdep : e2.department = e.department)
    (hhd : e2.hire_date = e.hire_date)
    (hurl : e2.profile_picture_url = e.profile_picture_url)
    (hca : e2.created_at = e.created_at)
    (hclock : e.updated_at < now) :
    (dbUpdateEmployee t now e2).1 = true
  ∧ ∀ r, (dbUpdateEmployee t now e2).2.getItem e.employee_id = some r →
      (r.employee_id = e.employee_id ∧ r.first_name = e.first_name ∧ r.last_name = e.last_name
       ∧ r.email = e.email ∧ r.position = e.position ∧ r.department = e.department
       ∧ r.hire_date = e.hire_date ∧ r.profile_picture_url = e.profile_picture_url
       ∧ r.created_at = e.created_at ∧ r.phone = e2.phone ∧ e.updated_at < r.updated_at) := by
  have hres : dbUpdateEmployee t now e2 = (true, t.putItem { e2 with updated_at := now }) := by
    simp [dbUpdateEmployee, hvalid, hstored]
  constructor
  · rw [hres]
  · intro r hr
    rw [hres] at hr
    have hput : (t.putItem { e2 with updated_at := now }).getItem e.employee_id
        = some { e2 with updated_at := now } := by
      rw [← hid]
      exact getItem_putItem_self t { e2 with updated_at := now }
    rw [hput] at hr
    cases hr
    exact ⟨hid, hfn, hln, hem, hpos, hdep, hhd, hurl, hca, rfl, hclock⟩

/-- Witness for claim C6: a concrete one-record store, updating only the
phone at time 5 keeps the other fields and moves `updated_at` from 3 to 5. -/
theorem update_phone_only_frame_witness :
    (dbUpdateEmployee w6Table 5 w6New).1 = true
  ∧ ∀ r, (dbUpdateEmployee w6Table 5 w6New).2.getItem w6Emp.employee_id = some r →
      (r.email = w6Emp.email ∧ r.phone = w6New.phone ∧ w6Emp.updated_at < r.updated_at) :=
  have H := update_phone_only_frame w6Table 5 w6Emp w6New rfl (by decide) rfl rfl rfl rfl rfl
    rfl rfl rfl rfl (by decide)
  ⟨H.1, fun r hr =>
    ⟨(H.2 r hr).2.2.2.1, (H.2 r hr).2.2.2.2.2.2.2.2.2.1, (H.2 r hr).2.2.2.2.2.2.2.2.2.2⟩⟩

/-- Claim C7: the validator is pure and its rules are independent: the error
list is exactly the messages of the violated rules, in rule order; the ok
flag is equivalent to an empty error list; every violated rule's message is
reported, and nothing else is. -/
theorem validate_rule_characterization (e : Employee) :
    (Employee.validate e).2 = (vRules.filter (fun r => r.bad e)).map (fun r => r.msg)
  ∧ ((Employee.validate e).1 = true ↔ (Employee.validate e).2 = [])
  ∧ (∀ r, r ∈ vRules → r.bad e = true → r.msg ∈ (Employee.validate e).2)
  ∧ (∀ m, m ∈ (Employee.validate e).2 → ∃ r, r ∈ vRules ∧ r.bad e = true ∧ r.msg = m) := by
  have hfst : (Employee.validate e).1 = ((Employee.validate e).2.length == 0) := rfl
  refine ⟨validate_errors_eq e, ?_, ?_, ?_⟩
  · rw [hfst]
    simp [List.length_eq_zero]
  · intro r hr hbad
    rw [validate_errors_eq e]
    exact List.mem_map_of_mem _ (List.mem_filter.2 ⟨hr, hbad⟩)
  · intro m hm
    rw [validate_errors_eq e] at hm
    rcases List.mem_map.1 hm with ⟨r, hr, rfl⟩
    rcases List.mem_filter.1 hr with ⟨hr1, hr2⟩
    exact ⟨r, hr1, hr2, rfl⟩

/-- Witness for claim C7: an employee with an empty first name; the
first-name rule is in the rule list, it is violated, and its message is
reported. -/
theorem validate_rule_characterization_witness :
    "First name is required" ∈ (Employee.validate w7Emp).2 :=
  (validate_rule_characterization w7Emp).2.2.1
    ⟨fun e => e.first_name == "" || pyStrip e.first_name == "", "First name is required"⟩
    (by unfold vRules; exact List.mem_cons_of_mem _ (List.mem_cons_self _ _))
    (by decide)

/-- Claim C8 (code divergence witness): with the unique record carrying
`dup@x.com` on the second scan page, the email lookup returns nothing even
though the record is in the collection and a full scan sees it. -/
theorem getEmployeeByEmail_misses_second_page :
    c1Emp2 ∈ c8Table.items
  ∧ c1Emp2.email = "dup@x.com"
  ∧ dbGetEmployeeByEmail c8Table "dup@x.com" = none
  ∧ dbGetAllEmployees c8Table = [c1Emp1, c1Emp2] := by
  decide

/-- Claim C9: the health check is total: with both adapter checks returning,
it reports the two component booleans and their conjunction as the overall
status; an exception raised by either check is caught and yields the
all-false degraded report instead of propagating. -/
theorem healthCheck_total_and_degraded (a b : Bool) (m : String) (r : Except String Bool) :
    serviceHealthCheck (Except.ok a) (Except.ok b)
      = { database := a, storage := b, overall := a && b, error := none }
  ∧ serviceHealthCheck (Except.error m) r
      = { database := false, storage := false, overall := false, error := some m }
  ∧ serviceHealthCheck (Except.ok a) (Except.error m)
      = { database := false, storage := false, overall := false, error := some m } :=
  ⟨rfl, rfl, rfl⟩

/-- Counterexample to claim C10 as stated: the two upload operations are
mutating, yet their interface type is an optional URL and their degraded
value on an internal exception is `None`, not the `False` the claim's
"False for mutating operations" mapping prescribes; shown here at concrete
raising outcomes. -/
theorem coordinator_degraded_counterexample :
    serviceUploadProfilePictureE (Except.error "boom") (Except.ok true) (Except.ok none)
      (Except.ok true) = none
  ∧ serviceUploadDocumentE (Except.error "boom") (Except.ok none) = none :=
  ⟨rfl, rfl⟩

/-- Claim C10 as amended: every public Coordinator operation is total at its
interface: an exception raised anywhere inside the body is caught and
surfaced as the operation's degraded return value — `false` for the
boolean-returning mutations (add, update, delete, delete-profile-picture,
delete-document), `none` for the single-record read and for the two upload
mutations, `[]` for the collection reads (list, both searches, document
listing, departments, positions), the empty dictionary (`none`) for
statistics, and the all-false report for the health check — and no typed
error value distinguishes validation failure, absence, duplicate email, or
store failure in the returned value. -/
theorem coordinator_total_amended :
    (∀ (e : Employee) (emRes : Except String (Option Employee)) (cRes : Except String Bool),
        (Employee.validate e).1 = false → serviceAddEmployeeE e emRes cRes = false)
  ∧ (∀ (e : Employee) (getRes emailRes : Except String (Option Employee))
        (updRes : Except String Bool),
        (Employee.validate e).1 = false
        → serviceUpdateEmployeeE e getRes emailRes updRes = false)
  ∧ (∀ (e existing : Employee) (m : String) (updRes : Except String Bool),
        existing.email ≠ e.email
        → serviceUpdateEmployeeE e (Except.ok (some existing)) (Except.error m) updRes = false)
  ∧ (∀ (e existing other : Employee) (updRes : Except String Bool),
        existing.email ≠ e.email
        → other.employee_id ≠ e.employee_id
        → serviceUpdateEmployeeE e (Except.ok (some existing)) (Except.ok (some other)) updRes
            = false)
  ∧ (∀ (e : Employee) (m : String) (cRes : Except String Bool),
        serviceAddEmployeeE e (Except.error m) cRes = false)
  ∧ (∀ (e other : Employee) (cRes : Except String Bool),
        serviceAddEmployeeE e (Except.ok (some other)) cRes = false)
  ∧ (∀ (e : Employee) (emRes : Except String (Option Employee)) (m : String),
        serviceAddEmployeeE e emRes (Except.error m) = false)
  ∧ (∀ (e : Employee) (m : String) (emailRes : Except String (Option Employee))
        (updRes : Except String Bool),
        serviceUpdateEmployeeE e (Except.error m) emailRes updRes = false)
  ∧ (∀ (e : Employee) (emailRes : Except String (Option Employee)) (updRes : Except String Bool),
        serviceUpdateEmployeeE e (Except.ok none) emailRes updRes = false)
  ∧ (∀ (e existing : Employee) (emailRes : Except String (Option Employee)) (m : String),
        serviceUpdateEmployeeE e (Except.ok (some existing)) emailRes (Except.error m) = false)
  ∧ (∀ (m : String) (blobRes delRes : Except String Bool),
        serviceDeleteEmployeeE (Except.error m) blobRes delRes = false)
  ∧ (∀ (blobRes delRes : Except String Bool),
        serviceDeleteEmployeeE (Except.ok none) blobRes delRes = false)
  ∧ (∀ (x : Employee) (m : String) (delRes : Except String Bool),
        serviceDeleteEmployeeE (Except.ok (some x)) (Except.error m) delRes = false)
  ∧ (∀ (x : Employee) (blobRes : Except String Bool) (m : String),
        serviceDeleteEmployeeE (Except.ok (some x)) blobRes (Except.error m) = false)
  ∧ (∀ (m : String) (b : Bucket), serviceGetEmployeeE (Except.error m) b = none)
  ∧ (∀ (b : Bucket), serviceGetEmployeeE (Except.ok none) b = none)
  ∧ (∀ (m : String) (b : Bucket), serviceGetAllEmployeesE (Except.error m) b = [])
  ∧ (∀ (m : String) (b : Bucket), serviceSearchByDepartmentE (Except.error m) b = [])
  ∧ (∀ (m : String) (b : Bucket), serviceSearchByPositionE (Except.error m) b = [])
  ∧ (∀ (m : String) (delRes : Except String Bool) (upRes : Except String (Option String))
        (updRes : Except String Bool),
        serviceUploadProfilePictureE (Except.error m) delRes upRes updRes = none)
  ∧ (∀ (delRes : Except String Bool) (upRes : Except String (Option String))
        (updRes : Except String Bool),
        serviceUploadProfilePictureE (Except.ok none) delRes upRes updRes = none)
  ∧ (∀ (x : Employee) (m : String) (upRes : Except String (Option String))
        (updRes : Except String Bool),
        serviceUploadProfilePictureE (Except.ok (some x)) (Except.error m) upRes updRes = none)
  ∧ (∀ (x : Employee) (delRes : Except String Bool) (m : String) (updRes : Except String Bool),
        serviceUploadProfilePictureE (Except.ok (some x)) delRes (Except.error m) updRes = none)
  ∧ (∀ (x : Employee) (delRes : Except String Bool) (url m : String),
        serviceUploadProfilePictureE (Except.ok (some x)) delRes (Except.ok (some url))
          (Except.error m) = none)
  ∧ (∀ (m : String) (delRes updRes : Except String Bool),
        serviceDeleteProfilePictureE (Except.error m) delRes updRes = false)
  ∧ (∀ (delRes updRes : Except String Bool),
        serviceDeleteProfilePictureE (Except.ok none) delRes updRes = false)
  ∧ (∀ (x : Employee) (m : String) (updRes : Except String Bool),
        serviceDeleteProfilePictureE (Except.ok (some x)) (Except.error m) updRes = false)
  ∧ (∀ (x : Employee) (m : String),
        serviceDeleteProfilePictureE (Except.ok (some x)) (Except.ok true) (Except.error m)
          = false)
  ∧ (∀ (m : String) (upRes : Except String (Option String)),
        serviceUploadDocumentE (Except.error m) upRes = none)
  ∧ (∀ (upRes : Except String (Option String)),
        serviceUploadDocumentE (Except.ok none) upRes = none)
  ∧ (∀ (x : Employee) (m : String),
        serviceUploadDocumentE (Except.ok (some x)) (Except.error m) = none)
  ∧ (∀ (m : String) (listRes : Except String (List String)),
        serviceGetEmployeeDocumentsE (Except.error m) listRes = [])
  ∧ (∀ (listRes : Except String (List String)),
        serviceGetEmployeeDocumentsE (Except.ok none) listRes = [])
  ∧ (∀ (x : Employee) (m : String),
        serviceGetEmployeeDocumentsE (Except.ok (some x)) (Except.error m) = [])
  ∧ (∀ (m : String), serviceDeleteDocumentE (Except.error m) = false)
  ∧ (∀ (m : String), serviceGetDepartmentsE (Except.error m) = [])
  ∧ (∀ (m : String), serviceGetPositionsE (Except.error m) = [])
  ∧ (∀ (m : String) (r : Except String Unit), serviceGetStatisticsE (Except.error m) r = none)
  ∧ (∀ (l : List Employee) (m : String),
        serviceGetStatisticsE (Except.ok l) (Except.error m) = none)
  ∧ (∀ (m : String) (r : Except String Bool),
        serviceHealthCheck (Except.error m) r
          = { database := false, storage := false, overall := false, error := some m })
  ∧ (∀ (a : Bool) (m : String),
        serviceHealthCheck (Except.ok a) (Except.error m)
          = { database := false, storage := false, overall := false, error := some m }) := by
  refine ⟨?_, ?_, ?_, ?_, ?_, ?_, ?_, ?_, ?_, ?_,
    fun m b d => rfl, fun b d => rfl, fun x m d => rfl, ?_,
    fun m b => rfl, fun b => rfl, fun m b => rfl, fun m b => rfl, fun m b => rfl,
    fun m d u v => rfl, fun d u v => rfl, fun x m u v => rfl, ?_, ?_,
    fun m d v => rfl, fun d v => rfl, fun x m v => rfl, fun x m => rfl,
    fun m u => rfl, fun u => rfl, fun x m => rfl,
    fun m l => rfl, fun l => rfl, fun x m => rfl,
    fun m => rfl, fun m => rfl, fun m => rfl, fun m r => rfl, fun l m => rfl,
    fun m r => rfl, fun a m => rfl⟩
  · intro e emRes cRes h
    unfold serviceAddEmployeeE
    rw [h]
    rfl
  · intro e getRes emailRes updRes h
    unfold serviceUpdateEmployeeE
    rw [h]
    rfl
  · intro e existing m updRes hne
    have hb : (existing.email != e.email) = true := by simp [hne]
    unfold serviceUpdateEmployeeE
    split
    · rfl
    · simp [hb]
  · intro e existing other updRes hne hid
    have hb : (existing.email != e.email) = true := by simp [hne]
    have hb2 : (other.employee_id != e.employee_id) = true := by simp [hid]
    unfold serviceUpdateEmployeeE
    split
    · rfl
    · simp [hb, hb2]
  · intro e m cRes
    unfold serviceAddEmployeeE
    split <;> rfl
  · intro e other cRes
    unfold serviceAddEmployeeE
    split <;> rfl
  · intro e emRes m
    unfold serviceAddEmployeeE
    rcases emRes with m2 | em
    · split <;> rfl
    · rcases em with _ | other
      · split <;> rfl
      · split <;> rfl
  · intro e m emailRes updRes
    unfold serviceUpdateEmployeeE
    split <;> rfl
  · intro e emailRes updRes
    unfold serviceUpdateEmployeeE
    split <;> rfl
  · intro e existing emailRes m
    unfold serviceUpdateEmployeeE
    split
    · rfl
    · rcases emailRes with m2 | em
      · cases hmail : (existing.email != e.email) <;> simp [hmail]
      · rcases em with _ | o
        · cases hmail : (existing.email != e.email) <;> simp [hmail]
        · cases hmail : (existing.email != e.email) <;>
            cases ho : (o.employee_id != e.employee_id) <;> simp [hmail, ho]
  · intro x b m
    unfold serviceDeleteEmployeeE
    cases b <;> rfl
  · intro x d m v
    unfold serviceUploadProfilePictureE
    cases d <;> rfl
  · intro x d url m
    unfold serviceUploadProfilePictureE
    cases d <;> rfl

/-- Witness for the amended claim C10: the hypothesis-bearing conjuncts
applied at concrete inputs: an everywhere-invalid record degrades add and
update to `false`, and an email-changing update degrades to `false` both
when the duplicate lookup raises and when it finds a different owner. -/
theorem coordinator_total_amended_witness :
    serviceAddEmployeeE w10Emp (Except.ok none) (Except.ok true) = false
  ∧ serviceUpdateEmployeeE w10Emp (Except.ok (some w6Emp)) (Except.ok none) (Except.ok true)
      = false
  ∧ serviceUpdateEmployeeE c4Update (Except.ok (some c4E1)) (Except.error "boom")
      (Except.ok true) = false
  ∧ serviceUpdateEmployeeE c4Update (Except.ok (some c4E1)) (Except.ok (some c4E2))
      (Except.ok true) = false :=
  ⟨coordinator_total_amended.1 w10Emp (Except.ok none) (Except.ok true) (by decide),
   coordinator_total_amended.2.1 w10Emp (Except.ok (some w6Emp)) (Except.ok none)
     (Except.ok true) (by decide),
   coordinator_total_amended.2.2.1 c4Update c4E1 "boom" (Except.ok true) (by decide),
   coordinator_total_amended.2.2.2.1 c4Update c4E1 c4E2 (Except.ok true) (by decide)
     (by decide)⟩
